import Mathlib

/-!
Verification of the ddb command-line client (ddb/client.py, ddb/cli.py,
ddb/config.py) against its specification.

The program is glue code over an HTTP API: a client that builds one HTTP
request per operation and classifies the outcome, and a command layer that
resolves the target database, parses JSON-bearing arguments, invokes one
client operation and renders the result.  We embed it shallowly:

* `Json` models Python values decoded from JSON (`json.loads` results and
  request bodies).  Objects are association lists modelling Python dicts
  (keys unique, insertion-ordered).
* `RequestDescriptor` models one call to `httpx.request`: method, URL path
  (relative to the base URL), optional JSON body, optional query params.
* `HttpOutcome` models what the network does with one request: a 2xx
  response with a JSON body, a 4xx/5xx response (`raise_for_status`
  raises `HTTPStatusError`) with its status code, the JSON parse of its
  body when the body parses (`none` otherwise) and the raw string
  representation `str(e)` of the failure, or a transport-level failure
  (`httpx.RequestError`) with its description.
* The request executor `DarangoClient._request` is a function of an
  abstract transport `exec : RequestDescriptor → HttpOutcome`; it returns
  the list of requests it issued (so that "no retry" and "no network call"
  are statable) together with the classified result, an
  `Except DarangoError Json` mirroring the Python return-or-raise.
* The command layer functions in namespace `Cli` take the environment
  value of `ARANGO_DB` as `Option String` and `json.loads` as an abstract
  `parse : String → Except String Json` (the Python standard library is
  not part of this repository; only the branching on its result is).
  They return a `CmdResult`: requests issued, what was printed
  (formatted JSON vs. a formatted error message) and the exit status.

Python truthiness (`if bind:`, `if bind_vars:`, `db or ...`) is modelled
exactly: `None` and empty strings/dicts are falsy.
-/

/-- A JSON value, as decoded by Python's `json.loads` or sent as a request
body.  Numbers are modelled as integers (no claim depends on non-integer
numerics).  `obj` models a Python dict: an insertion-ordered association
list with unique keys. -/
inductive Json where
  | null : Json
  | bool : Bool → Json
  | num : Int → Json
  | str : String → Json
  | arr : List Json → Json
  | obj : List (String × Json) → Json

/-- Dict lookup on the field list of a JSON object. -/
def lookupField : List (String × Json) → String → Option Json
  | [], _ => none
  | (k, v) :: rest, key => if k = key then some v else lookupField rest key

/-- `j.getField k` models `j[k]` guarded by `k in j` on a decoded JSON
value: it yields the field's value when `j` is an object containing the
key, and `none` otherwise.  (In `_request`, on a non-dict decoded body the
Python membership test either is false or the subsequent indexing raises
and is swallowed by the bare `except`, so the raw message is kept — the
same observable behaviour as `none` here.) -/
def Json.getField : Json → String → Option Json
  | .obj fields, k => lookupField fields k
  | _, _ => none

/-- Python truthiness of a decoded JSON value: `None`, `False`, `0`, empty
strings, lists and dicts are falsy. -/
def Json.pyTruthy : Json → Bool
  | .null => false
  | .bool b => b
  | .num n => n != 0
  | .str s => !(s == "")
  | .arr [] => false
  | .arr (_ :: _) => true
  | .obj [] => false
  | .obj (_ :: _) => true

/-- One HTTP request as passed to `httpx.request` in
`DarangoClient._request`: method, path appended to the base URL, optional
JSON body, optional query parameters. -/
structure RequestDescriptor where
  method : String
  path : String
  json : Option Json := none
  params : Option Json := none

/-- The transport's answer to one request, as observed by
`DarangoClient._request` after `raise_for_status`:
`success body` is a 2xx response whose body parses as `body`;
`statusError code bodyJson raw` is a 4xx/5xx response with status `code`,
whose body parses as JSON to `bodyJson` (or `none` when it does not
parse), `raw` being `str(e)` of the `HTTPStatusError`;
`transportError desc` is an `httpx.RequestError` with description
`desc` (`str(e)`). -/
inductive HttpOutcome where
  | success : Json → HttpOutcome
  | statusError : Nat → Option Json → String → HttpOutcome
  | transportError : String → HttpOutcome

/-- The exception `DarangoError(message, status_code)` from ddb/client.py.
The message is a `Json` value because `error_data["errorMessage"]` can be
any JSON value, which Python stores as-is; string messages appear as
`Json.str`. -/
structure DarangoError where
  message : Json
  status_code : Option Nat := none

namespace DarangoClient

/-- The error-message extraction of `_request`'s `HTTPStatusError` handler:
start from `str(e)`, then if the response body parsed as JSON prefer the
field `errorMessage`, else the field `error`, else keep `str(e)`. -/
def httpErrorMessage (bodyJson : Option Json) (raw : String) : Json :=
  match bodyJson with
  | some errorData =>
    match errorData.getField "errorMessage" with
    | some v => v
    | none =>
      match errorData.getField "error" with
      | some v => v
      | none => .str raw
  | none => .str raw

/-- Outcome classification of `_request`: a 2xx response returns its parsed
body; a 4xx/5xx response raises `DarangoError(error_msg, status_code)`
with the message chosen by `httpErrorMessage`; a transport failure raises
`DarangoError(f"Request failed: {e}")` with no status code. -/
def classifyOutcome : HttpOutcome → Except DarangoError Json
  | .success body => .ok body
  | .statusError code bodyJson raw =>
      .error ⟨httpErrorMessage bodyJson raw, some code⟩
  | .transportError desc =>
      .error ⟨.str ("Request failed: " ++ desc), none⟩

/-- `DarangoClient._request`: issue exactly one HTTP request described by
method, path, optional JSON body and optional params against the abstract
transport `ex`, and classify the outcome.  The first component is the list
of requests issued (always a singleton: the code performs a single
`httpx.request` call with no retry). -/
def _request (ex : RequestDescriptor → HttpOutcome) (method path : String)
    (json : Option Json := none) (params : Option Json := none) :
    List RequestDescriptor × Except DarangoError Json :=
  let rd : RequestDescriptor := ⟨method, path, json, params⟩
  ([rd], classifyOutcome (ex rd))

/-- `DarangoClient.create_collection`: POST `/_db/{db}/_api/collection`
with a body mapping "name" to the collection name and "type" to the
numeric type code, 3 for an "edge" collection and 2 otherwise. -/
def create_collection (ex : RequestDescriptor → HttpOutcome)
    (db name : String) (collection_type : String := "document") :
    List RequestDescriptor × Except DarangoError Json :=
  let type_code : Int := if collection_type = "edge" then 3 else 2
  _request ex "POST" ("/_db/" ++ db ++ "/_api/collection")
    (some (.obj [("name", .str name), ("type", .num type_code)]))

/-- `DarangoClient.query`: POST `/_db/{db}/_api/cursor` with a body
mapping "query" to the AQL text, to which a "bindVars" field is added
only when `bind_vars` is truthy (not `None` and not empty). -/
def query (ex : RequestDescriptor → HttpOutcome) (db aql : String)
    (bind_vars : Option Json := none) :
    List RequestDescriptor × Except DarangoError Json :=
  let body : Json :=
    match bind_vars with
    | some bv =>
      if bv.pyTruthy then .obj [("query", .str aql), ("bindVars", bv)]
      else .obj [("query", .str aql)]
    | none => .obj [("query", .str aql)]
  _request ex "POST" ("/_db/" ++ db ++ "/_api/cursor") (some body)

/-- `DarangoClient.get_document`: GET
`/_db/{db}/_api/document/{collection}/{key}` with no body. -/
def get_document (ex : RequestDescriptor → HttpOutcome)
    (db collection key : String) :
    List RequestDescriptor × Except DarangoError Json :=
  _request ex "GET" ("/_db/" ++ db ++ "/_api/document/" ++ collection ++ "/" ++ key)

/-- `DarangoClient.insert_document`: POST
`/_db/{db}/_api/document/{collection}` with the document as body,
verbatim. -/
def insert_document (ex : RequestDescriptor → HttpOutcome)
    (db collection : String) (document : Json) :
    List RequestDescriptor × Except DarangoError Json :=
  _request ex "POST" ("/_db/" ++ db ++ "/_api/document/" ++ collection)
    (some document)

/-- `DarangoClient.update_document`: PATCH
`/_db/{db}/_api/document/{collection}/{key}` with the document as body,
verbatim. -/
def update_document (ex : RequestDescriptor → HttpOutcome)
    (db collection key : String) (document : Json) :
    List RequestDescriptor × Except DarangoError Json :=
  _request ex "PATCH"
    ("/_db/" ++ db ++ "/_api/document/" ++ collection ++ "/" ++ key)
    (some document)

/-- `DarangoClient.delete_document`: DELETE
`/_db/{db}/_api/document/{collection}/{key}` with no body. -/
def delete_document (ex : RequestDescriptor → HttpOutcome)
    (db collection key : String) :
    List RequestDescriptor × Except DarangoError Json :=
  _request ex "DELETE"
    ("/_db/" ++ db ++ "/_api/document/" ++ collection ++ "/" ++ key)

end DarangoClient

/-- `get_default_db` from ddb/config.py:
`os.environ.get("ARANGO_DB", "_system")`, with the environment value of
`ARANGO_DB` passed explicitly (`none` = unset). -/
def get_default_db (env : Option String) : String := env.getD "_system"

/-- What a command prints: either the operation's JSON result rendered by
`print_json`, or an error message rendered by `print_error`
(`"[red]Error:[/red] {message}"`), visually distinguished from normal
output. -/
inductive Output where
  | jsonOut : Json → Output
  | errorOut : Json → Output

/-- The observable result of one CLI invocation: the HTTP requests issued
(in order), what was printed, and the process exit status (0 on normal
return, 1 on `typer.Exit(1)`). -/
structure CmdResult where
  requests : List RequestDescriptor
  output : Output
  exitCode : Nat

namespace Cli

/-- Python's `x or d` for an optional string `x`: `d` when `x` is `None`
or the empty string (falsy), else the string itself. -/
def pyOrStr : Option String → String → String
  | some s, d => if s = "" then d else s
  | none, d => d

/-- The database resolution performed by every command:
`db = db or get_default_db()`. -/
def resolveDb (dbOpt env : Option String) : String :=
  pyOrStr dbOpt (get_default_db env)

/-- The shared `try: print_json(result) / except DarangoError: print_error;
exit 1` tail of every command, applied to a client operation's result. -/
def renderOutcome (res : List RequestDescriptor × Except DarangoError Json) :
    CmdResult :=
  match res with
  | (reqs, .ok result) => ⟨reqs, .jsonOut result, 0⟩
  | (reqs, .error e) => ⟨reqs, .errorOut e.message, 1⟩

/-- The `create` command: resolve the database, call
`create_collection(db, name, collection_type)`, render. -/
def create (env : Option String) (ex : RequestDescriptor → HttpOutcome)
    (name : String) (dbOpt : Option String)
    (collection_type : String := "document") : CmdResult :=
  let db := resolveDb dbOpt env
  renderOutcome (DarangoClient.create_collection ex db name collection_type)

/-- The `query` command: resolve the database; when `--bind` is given and
truthy (non-empty), parse it as JSON — on failure print
`Invalid JSON for bind variables` and exit 1 without any client call;
otherwise call `query(db, aql, bind_vars)` and render. -/
def query (parse : String → Except String Json) (env : Option String)
    (ex : RequestDescriptor → HttpOutcome) (aql : String)
    (dbOpt : Option String) (bind : Option String) : CmdResult :=
  let db := resolveDb dbOpt env
  match bind with
  | some s =>
    if s = "" then renderOutcome (DarangoClient.query ex db aql none)
    else
      match parse s with
      | .error e =>
        ⟨[], .errorOut (.str ("Invalid JSON for bind variables: " ++ e)), 1⟩
      | .ok bv => renderOutcome (DarangoClient.query ex db aql (some bv))
  | none => renderOutcome (DarangoClient.query ex db aql none)

/-- The `get` command: resolve the database, call
`get_document(db, col, key)`, render. -/
def get_doc (env : Option String) (ex : RequestDescriptor → HttpOutcome)
    (dbOpt : Option String) (col key : String) : CmdResult :=
  renderOutcome (DarangoClient.get_document ex (resolveDb dbOpt env) col key)

/-- The `insert` command: resolve the database, parse `--doc` as JSON — on
failure print `Invalid JSON for document` and exit 1 without any client
call — then call `insert_document(db, col, document)` and render. -/
def insert (parse : String → Except String Json) (env : Option String)
    (ex : RequestDescriptor → HttpOutcome) (dbOpt : Option String)
    (col doc : String) : CmdResult :=
  let db := resolveDb dbOpt env
  match parse doc with
  | .error e => ⟨[], .errorOut (.str ("Invalid JSON for document: " ++ e)), 1⟩
  | .ok document =>
    renderOutcome (DarangoClient.insert_document ex db col document)

/-- The `update` command: resolve the database, parse `--doc` as JSON — on
failure print `Invalid JSON for document` and exit 1 without any client
call — then call `update_document(db, col, key, document)` and render. -/
def update (parse : String → Except String Json) (env : Option String)
    (ex : RequestDescriptor → HttpOutcome) (dbOpt : Option String)
    (col key doc : String) : CmdResult :=
  let db := resolveDb dbOpt env
  match parse doc with
  | .error e => ⟨[], .errorOut (.str ("Invalid JSON for document: " ++ e)), 1⟩
  | .ok document =>
    renderOutcome (DarangoClient.update_document ex db col key document)

/-- The `delete` command: resolve the database, call
`delete_document(db, col, key)`, render. -/
def delete (env : Option String) (ex : RequestDescriptor → HttpOutcome)
    (dbOpt : Option String) (col key : String) : CmdResult :=
  renderOutcome (DarangoClient.delete_document ex (resolveDb dbOpt env) col key)

end Cli

/-! ### Helper lemmas and concrete fixtures shared by the theorems below -/

/-- A concrete transport answering every request with an empty-object 2xx
response (used to instantiate universally quantified theorems). -/
def okTransport : RequestDescriptor → HttpOutcome := fun _ => .success (.obj [])

/-- A concrete transport refusing every connection. -/
def downTransport : RequestDescriptor → HttpOutcome :=
  fun _ => .transportError "Connection refused"

/-- A concrete stand-in for `json.loads` on malformed input: every string
fails to parse with the usual CPython message. -/
def failParse : String → Except String Json :=
  fun _ => .error "Expecting value: line 1 column 1 (char 0)"

theorem renderOutcome_requests
    (res : List RequestDescriptor × Except DarangoError Json) :
    (Cli.renderOutcome res).requests = res.1 := by
  rcases res with ⟨reqs, r⟩
  cases r <;> rfl

theorem renderOutcome_cases
    (res : List RequestDescriptor × Except DarangoError Json) :
    (∃ j, res.2 = .ok j ∧ Cli.renderOutcome res = ⟨res.1, .jsonOut j, 0⟩) ∨
    (∃ er, res.2 = .error er ∧
      Cli.renderOutcome res = ⟨res.1, .errorOut er.message, 1⟩) := by
  rcases res with ⟨reqs, r⟩
  cases r with
  | error er => exact .inr ⟨er, rfl, rfl⟩
  | ok j => exact .inl ⟨j, rfl, rfl⟩

/-! ### The claims -/

/-- Claim C1: for every HTTP response with a 4xx or 5xx status code, the
request executor fails with an error whose message is chosen by priority —
the value of the field `errorMessage` if the response body parses as JSON
and contains it, else the value of the field `error` if present, else the
raw string representation of the HTTP status failure — and the error
carries the response's numeric status code. -/
theorem c1_http_error_priority (code : Nat) (bodyJson : Option Json)
    (raw : String) (hcode : 400 ≤ code ∧ code ≤ 599) :
    (∀ j v, bodyJson = some j → j.getField "errorMessage" = some v →
      DarangoClient.classifyOutcome (.statusError code bodyJson raw) =
        .error ⟨v, some code⟩) ∧
    (∀ j v, bodyJson = some j → j.getField "errorMessage" = none →
      j.getField "error" = some v →
      DarangoClient.classifyOutcome (.statusError code bodyJson raw) =
        .error ⟨v, some code⟩) ∧
    (∀ j, bodyJson = some j → j.getField "errorMessage" = none →
      j.getField "error" = none →
      DarangoClient.classifyOutcome (.statusError code bodyJson raw) =
        .error ⟨.str raw, some code⟩) ∧
    (bodyJson = none →
      DarangoClient.classifyOutcome (.statusError code bodyJson raw) =
        .error ⟨.str raw, some code⟩) := by
  refine ⟨?_, ?_, ?_, ?_⟩ <;> intros <;>
    simp_all [DarangoClient.classifyOutcome, DarangoClient.httpErrorMessage]

/-- Witness for C1: a 404 whose body carries an `errorMessage` field. -/
theorem c1_witness :
    DarangoClient.classifyOutcome
      (.statusError 404
        (some (.obj [("errorMessage", .str "Document not found")]))
        "Client error 404") =
      .error ⟨.str "Document not found", some 404⟩ :=
  (c1_http_error_priority 404
      (some (.obj [("errorMessage", .str "Document not found")]))
      "Client error 404" (by decide)).1
    (.obj [("errorMessage", .str "Document not found")])
    (.str "Document not found") rfl rfl

/-- Claim C2: with no bind variables supplied, the query operation sends a
body containing only the query — no bind-variable field at all. -/
theorem c2_query_omits_bind_vars (db aql : String)
    (ex : RequestDescriptor → HttpOutcome) :
    DarangoClient.query ex db aql none =
      ([⟨"POST", "/_db/" ++ db ++ "/_api/cursor",
         some (.obj [("query", .str aql)]), none⟩],
       DarangoClient.classifyOutcome
         (ex ⟨"POST", "/_db/" ++ db ++ "/_api/cursor",
           some (.obj [("query", .str aql)]), none⟩)) ∧
    (Json.obj [("query", .str aql)]).getField "bindVars" = none := by
  refine ⟨rfl, ?_⟩
  simp [Json.getField, lookupField]

/-- Claim C3: collection creation maps the type string "edge" to numeric
type code 3 and every other value (including the default, "document") to
type code 2, sending a body of exactly the name and the type code. -/
theorem c3_collection_type_mapping (db name t : String)
    (ex : RequestDescriptor → HttpOutcome) :
    (DarangoClient.create_collection ex db name "edge" =
      ([⟨"POST", "/_db/" ++ db ++ "/_api/collection",
         some (.obj [("name", .str name), ("type", .num 3)]), none⟩],
       DarangoClient.classifyOutcome
         (ex ⟨"POST", "/_db/" ++ db ++ "/_api/collection",
           some (.obj [("name", .str name), ("type", .num 3)]), none⟩))) ∧
    (t ≠ "edge" →
      DarangoClient.create_collection ex db name t =
      ([⟨"POST", "/_db/" ++ db ++ "/_api/collection",
         some (.obj [("name", .str name), ("type", .num 2)]), none⟩],
       DarangoClient.classifyOutcome
         (ex ⟨"POST", "/_db/" ++ db ++ "/_api/collection",
           some (.obj [("name", .str name), ("type", .num 2)]), none⟩))) ∧
    (DarangoClient.create_collection ex db name =
      DarangoClient.create_collection ex db name "document") := by
  refine ⟨rfl, ?_, rfl⟩
  intro h
  simp [DarangoClient.create_collection, DarangoClient._request, h]

/-- Witness for C3: a plain "document" collection gets type code 2. -/
theorem c3_witness :
    DarangoClient.create_collection okTransport "_system" "people" "document" =
      ([⟨"POST", "/_db/_system/_api/collection",
         some (.obj [("name", .str "people"), ("type", .num 2)]), none⟩],
       DarangoClient.classifyOutcome
         (okTransport ⟨"POST", "/_db/_system/_api/collection",
           some (.obj [("name", .str "people"), ("type", .num 2)]), none⟩)) :=
  (c3_collection_type_mapping "_system" "people" "document" okTransport).2.1
    (by decide)

/-- Claim C9: the query operation does not distinguish an empty
bind-variable mapping from an absent one — both produce the same request
and result. -/
theorem c9_empty_bind_vars_eq_none (db aql : String)
    (ex : RequestDescriptor → HttpOutcome) :
    DarangoClient.query ex db aql (some (.obj [])) =
      DarangoClient.query ex db aql none := rfl

/-- Claim C5: every endpoint operation issues exactly the HTTP method,
path and body of the operation table, and returns the request executor's
classified result unmodified.  The query operation's body carries
`bindVars` exactly when bind variables are present (truthy). -/
theorem c5_endpoint_operation_table :
    (∀ (ex : RequestDescriptor → HttpOutcome) (db name t : String),
      DarangoClient.create_collection ex db name t =
        ([⟨"POST", "/_db/" ++ db ++ "/_api/collection",
           some (.obj [("name", .str name),
             ("type", .num (if t = "edge" then 3 else 2))]), none⟩],
         DarangoClient.classifyOutcome
           (ex ⟨"POST", "/_db/" ++ db ++ "/_api/collection",
             some (.obj [("name", .str name),
               ("type", .num (if t = "edge" then 3 else 2))]), none⟩))) ∧
    (∀ (ex : RequestDescriptor → HttpOutcome) (db aql : String),
      DarangoClient.query ex db aql none =
        ([⟨"POST", "/_db/" ++ db ++ "/_api/cursor",
           some (.obj [("query", .str aql)]), none⟩],
         DarangoClient.classifyOutcome
           (ex ⟨"POST", "/_db/" ++ db ++ "/_api/cursor",
             some (.obj [("query", .str aql)]), none⟩))) ∧
    (∀ (ex : RequestDescriptor → HttpOutcome) (db aql : String) (bv : Json),
      bv.pyTruthy = true →
      DarangoClient.query ex db aql (some bv) =
        ([⟨"POST", "/_db/" ++ db ++ "/_api/cursor",
           some (.obj [("query", .str aql), ("bindVars", bv)]), none⟩],
         DarangoClient.classifyOutcome
           (ex ⟨"POST", "/_db/" ++ db ++ "/_api/cursor",
             some (.obj [("query", .str aql), ("bindVars", bv)]), none⟩))) ∧
    (∀ (ex : RequestDescriptor → HttpOutcome) (db col key : String),
      DarangoClient.get_document ex db col key =
        ([⟨"GET", "/_db/" ++ db ++ "/_api/document/" ++ col ++ "/" ++ key,
           none, none⟩],
         DarangoClient.classifyOutcome
           (ex ⟨"GET", "/_db/" ++ db ++ "/_api/document/" ++ col ++ "/" ++ key,
             none, none⟩))) ∧
    (∀ (ex : RequestDescriptor → HttpOutcome) (db col : String)
        (document : Json),
      DarangoClient.insert_document ex db col document =
        ([⟨"POST", "/_db/" ++ db ++ "/_api/document/" ++ col,
           some document, none⟩],
         DarangoClient.classifyOutcome
           (ex ⟨"POST", "/_db/" ++ db ++ "/_api/document/" ++ col,
             some document, none⟩))) ∧
    (∀ (ex : RequestDescriptor → HttpOutcome) (db col key : String)
        (document : Json),
      DarangoClient.update_document ex db col key document =
        ([⟨"PATCH", "/_db/" ++ db ++ "/_api/document/" ++ col ++ "/" ++ key,
           some document, none⟩],
         DarangoClient.classifyOutcome
           (ex ⟨"PATCH", "/_db/" ++ db ++ "/_api/document/" ++ col ++ "/" ++ key,
             some document, none⟩))) ∧
    (∀ (ex : RequestDescriptor → HttpOutcome) (db col key : String),
      DarangoClient.delete_document ex db col key =
        ([⟨"DELETE", "/_db/" ++ db ++ "/_api/document/" ++ col ++ "/" ++ key,
           none, none⟩],
         DarangoClient.classifyOutcome
           (ex ⟨"DELETE", "/_db/" ++ db ++ "/_api/document/" ++ col ++ "/" ++ key,
             none, none⟩))) := by
  refine ⟨?_, fun _ _ _ => rfl, ?_, fun _ _ _ _ => rfl, fun _ _ _ _ => rfl,
    fun _ _ _ _ _ => rfl, fun _ _ _ _ => rfl⟩
  · intro ex db name t
    by_cases h : t = "edge" <;>
      simp [DarangoClient.create_collection, DarangoClient._request, h]
  · intro ex db aql bv h
    simp [DarangoClient.query, DarangoClient._request, h]

/-- Witness for C5: the query operation with a one-entry bind-variable
mapping sends it under `bindVars`. -/
theorem c5_witness :
    DarangoClient.query okTransport "_system" "RETURN @x"
        (some (.obj [("x", .num 1)])) =
      ([⟨"POST", "/_db/_system/_api/cursor",
         some (.obj [("query", .str "RETURN @x"),
           ("bindVars", .obj [("x", .num 1)])]), none⟩],
       DarangoClient.classifyOutcome
         (okTransport ⟨"POST", "/_db/_system/_api/cursor",
           some (.obj [("query", .str "RETURN @x"),
             ("bindVars", .obj [("x", .num 1)])]), none⟩)) :=
  c5_endpoint_operation_table.2.2.1 okTransport "_system" "RETURN @x"
    (.obj [("x", .num 1)]) rfl

/-- Claim C6: on a transport-level failure the request executor issues
exactly one request (no retry) and fails with a request-failed error
describing the underlying transport error and carrying no status code. -/
theorem c6_transport_failure_single_attempt (method path : String)
    (body params : Option Json) (ex : RequestDescriptor → HttpOutcome)
    (desc : String)
    (h : ex ⟨method, path, body, params⟩ = .transportError desc) :
    DarangoClient._request ex method path body params =
      ([⟨method, path, body, params⟩],
       .error ⟨.str ("Request failed: " ++ desc), none⟩) := by
  simp [DarangoClient._request, h, DarangoClient.classifyOutcome]

/-- Witness for C6: a refused connection on a GET. -/
theorem c6_witness :
    DarangoClient._request downTransport "GET"
        "/_db/_system/_api/document/users/k1" none none =
      ([⟨"GET", "/_db/_system/_api/document/users/k1", none, none⟩],
       .error ⟨.str ("Request failed: " ++ "Connection refused"), none⟩) :=
  c6_transport_failure_single_attempt "GET"
    "/_db/_system/_api/document/users/k1" none none downTransport
    "Connection refused" rfl

/-- Counterexample to claim C4 as stated: the empty string is malformed
JSON (`json.loads("")` raises, as `failParse` models), yet
`query --bind ""` does not fail at all — `if bind:` is false for the
empty string, so no parse is attempted and the command proceeds to issue
a network request, exiting 0 on success. -/
theorem c4_counterexample :
    failParse "" = .error "Expecting value: line 1 column 1 (char 0)" ∧
    Cli.query failParse none okTransport "RETURN 1" none (some "") =
      ⟨[⟨"POST", "/_db/_system/_api/cursor",
         some (.obj [("query", .str "RETURN 1")]), none⟩],
       .jsonOut (.obj []), 0⟩ :=
  ⟨rfl, rfl⟩

/-- Claim C4, amended: a malformed JSON-bearing argument makes the
command fail with an invalid-input error and exit status 1 while issuing
no request at all — for the query command's bind variables when the
argument is non-empty, and for the insert and update documents
unconditionally.  The exception forced by the counterexample: `--bind`
with the empty string is never parsed (the truthiness test skips it); it
is treated as absent bind variables and the query proceeds to the
network. -/
theorem c4_invalid_json_rejected_amended
    (parse : String → Except String Json) (env : Option String)
    (ex : RequestDescriptor → HttpOutcome) (s e : String)
    (hparse : parse s = .error e) :
    (∀ aql dbOpt, s ≠ "" →
      Cli.query parse env ex aql dbOpt (some s) =
        ⟨[], .errorOut (.str ("Invalid JSON for bind variables: " ++ e)), 1⟩) ∧
    (∀ aql dbOpt,
      Cli.query parse env ex aql dbOpt (some "") =
        Cli.query parse env ex aql dbOpt none) ∧
    (∀ dbOpt col, Cli.insert parse env ex dbOpt col s =
      ⟨[], .errorOut (.str ("Invalid JSON for document: " ++ e)), 1⟩) ∧
    (∀ dbOpt col key, Cli.update parse env ex dbOpt col key s =
      ⟨[], .errorOut (.str ("Invalid JSON for document: " ++ e)), 1⟩) := by
  refine ⟨?_, ?_, ?_, ?_⟩
  · intro aql dbOpt hs
    simp [Cli.query, hs, hparse]
  · intro aql dbOpt
    simp [Cli.query]
  · intro dbOpt col
    simp [Cli.insert, hparse]
  · intro dbOpt col key
    simp [Cli.update, hparse]

/-- Witness for amended C4: a non-JSON document string given to `insert`
exits 1 with no request. -/
theorem c4_amended_witness :
    Cli.insert failParse none okTransport none "users" "not json" =
      ⟨[], .errorOut (.str ("Invalid JSON for document: " ++
        "Expecting value: line 1 column 1 (char 0)")), 1⟩ :=
  (c4_invalid_json_rejected_amended failParse none okTransport
      "not json" "Expecting value: line 1 column 1 (char 0)" rfl).2.2.1
    none "users"

/-- Claim C7: every command resolves the target database as the explicit
(non-empty) `--db` argument if given, else the `ARANGO_DB` environment
value, else the constant `_system`; and every request the command issues
targets the resolved database in its path. -/
theorem c7_db_resolution_precedence :
    (∀ (d : String) (env : Option String), d ≠ "" →
      Cli.resolveDb (some d) env = d) ∧
    (∀ e : String, Cli.resolveDb none (some e) = e) ∧
    (Cli.resolveDb none none = "_system") ∧
    (∀ env ex name dbOpt t, ∀ rd ∈ (Cli.create env ex name dbOpt t).requests,
      rd.path = "/_db/" ++ Cli.resolveDb dbOpt env ++ "/_api/collection") ∧
    (∀ parse env ex aql dbOpt bind,
      ∀ rd ∈ (Cli.query parse env ex aql dbOpt bind).requests,
      rd.path = "/_db/" ++ Cli.resolveDb dbOpt env ++ "/_api/cursor") ∧
    (∀ env ex dbOpt col key, ∀ rd ∈ (Cli.get_doc env ex dbOpt col key).requests,
      rd.path = "/_db/" ++ Cli.resolveDb dbOpt env ++ "/_api/document/" ++
        col ++ "/" ++ key) ∧
    (∀ parse env ex dbOpt col doc,
      ∀ rd ∈ (Cli.insert parse env ex dbOpt col doc).requests,
      rd.path = "/_db/" ++ Cli.resolveDb dbOpt env ++ "/_api/document/" ++ col) ∧
    (∀ parse env ex dbOpt col key doc,
      ∀ rd ∈ (Cli.update parse env ex dbOpt col key doc).requests,
      rd.path = "/_db/" ++ Cli.resolveDb dbOpt env ++ "/_api/document/" ++
        col ++ "/" ++ key) ∧
    (∀ env ex dbOpt col key, ∀ rd ∈ (Cli.delete env ex dbOpt col key).requests,
      rd.path = "/_db/" ++ Cli.resolveDb dbOpt env ++ "/_api/document/" ++
        col ++ "/" ++ key) := by
  refine ⟨?_, fun _ => rfl, rfl, ?_, ?_, ?_, ?_, ?_, ?_⟩
  · intro d env h
    simp [Cli.resolveDb, Cli.pyOrStr, h]
  · intro env ex name dbOpt t rd hrd
    simp [Cli.create, renderOutcome_requests, DarangoClient.create_collection,
      DarangoClient._request] at hrd
    simp [hrd]
  · intro parse env ex aql dbOpt bind rd hrd
    rcases bind with _ | s
    · simp [Cli.query, renderOutcome_requests, DarangoClient.query,
        DarangoClient._request] at hrd
      simp [hrd]
    · by_cases hs : s = "" <;>
        simp [Cli.query, hs, renderOutcome_requests, DarangoClient.query,
          DarangoClient._request] at hrd
      · simp [hrd]
      · rcases hp : parse s with e | bv <;>
          simp [hp, renderOutcome_requests] at hrd <;> simp [hrd]
  · intro env ex dbOpt col key rd hrd
    simp [Cli.get_doc, renderOutcome_requests, DarangoClient.get_document,
      DarangoClient._request] at hrd
    simp [hrd]
  · intro parse env ex dbOpt col doc rd hrd
    rcases hp : parse doc with e | document <;>
      simp [Cli.insert, hp, renderOutcome_requests,
        DarangoClient.insert_document, DarangoClient._request] at hrd
    simp [hrd]
  · intro parse env ex dbOpt col key doc rd hrd
    rcases hp : parse doc with e | document <;>
      simp [Cli.update, hp, renderOutcome_requests,
        DarangoClient.update_document, DarangoClient._request] at hrd
    simp [hrd]
  · intro env ex dbOpt col key rd hrd
    simp [Cli.delete, renderOutcome_requests, DarangoClient.delete_document,
      DarangoClient._request] at hrd
    simp [hrd]

/-- Witness for C7: an explicit `--db` overrides the environment value. -/
theorem c7_witness : Cli.resolveDb (some "mydb") (some "envdb") = "mydb" :=
  c7_db_resolution_precedence.1 "mydb" (some "envdb") (by decide)

/-- Claim C10: passing `--db` as the empty string is treated exactly as
omitting `--db` in every command — the database resolves to the
environment default (or the fallback), never to the empty argument. -/
theorem c10_empty_db_option :
    (∀ env : Option String, Cli.resolveDb (some "") env = Cli.resolveDb none env) ∧
    (∀ env ex name t,
      Cli.create env ex name (some "") t = Cli.create env ex name none t) ∧
    (∀ parse env ex aql bind,
      Cli.query parse env ex aql (some "") bind =
        Cli.query parse env ex aql none bind) ∧
    (∀ env ex col key,
      Cli.get_doc env ex (some "") col key = Cli.get_doc env ex none col key) ∧
    (∀ parse env ex col doc,
      Cli.insert parse env ex (some "") col doc =
        Cli.insert parse env ex none col doc) ∧
    (∀ parse env ex col key doc,
      Cli.update parse env ex (some "") col key doc =
        Cli.update parse env ex none col key doc) ∧
    (∀ env ex col key,
      Cli.delete env ex (some "") col key = Cli.delete env ex none col key) := by
  refine ⟨fun env => ?_, fun env ex name t => ?_, fun parse env ex aql bind => ?_,
    fun env ex col key => ?_, fun parse env ex col doc => ?_,
    fun parse env ex col key doc => ?_, fun env ex col key => ?_⟩ <;>
    simp [Cli.resolveDb, Cli.pyOrStr, Cli.create, Cli.query, Cli.get_doc,
      Cli.insert, Cli.update, Cli.delete]

/-- Claim C8: every invocation exits 0 exactly when the operation
succeeds, printing the returned JSON, and exits 1 on any failure —
invalid JSON input or a classified request/API error — printing the
error's message through the error channel, distinguished from normal
output.  Stated per command: whenever the underlying operation is
reached, its success yields exit 0 with its JSON printed and its failure
yields exit 1 with its message printed as an error; a JSON-parse failure
yields exit 1 with the invalid-input error and no operation call. -/
theorem c8_exit_codes :
    (∀ env ex name dbOpt t,
      (∃ j, (DarangoClient.create_collection ex (Cli.resolveDb dbOpt env)
          name t).2 = .ok j ∧
        Cli.create env ex name dbOpt t =
          ⟨(DarangoClient.create_collection ex (Cli.resolveDb dbOpt env)
            name t).1, .jsonOut j, 0⟩) ∨
      (∃ er, (DarangoClient.create_collection ex (Cli.resolveDb dbOpt env)
          name t).2 = .error er ∧
        Cli.create env ex name dbOpt t =
          ⟨(DarangoClient.create_collection ex (Cli.resolveDb dbOpt env)
            name t).1, .errorOut er.message, 1⟩)) ∧
    (∀ env ex dbOpt col key,
      (∃ j, (DarangoClient.get_document ex (Cli.resolveDb dbOpt env)
          col key).2 = .ok j ∧
        Cli.get_doc env ex dbOpt col key =
          ⟨(DarangoClient.get_document ex (Cli.resolveDb dbOpt env)
            col key).1, .jsonOut j, 0⟩) ∨
      (∃ er, (DarangoClient.get_document ex (Cli.resolveDb dbOpt env)
          col key).2 = .error er ∧
        Cli.get_doc env ex dbOpt col key =
          ⟨(DarangoClient.get_document ex (Cli.resolveDb dbOpt env)
            col key).1, .errorOut er.message, 1⟩)) ∧
    (∀ env ex dbOpt col key,
      (∃ j, (DarangoClient.delete_document ex (Cli.resolveDb dbOpt env)
          col key).2 = .ok j ∧
        Cli.delete env ex dbOpt col key =
          ⟨(DarangoClient.delete_document ex (Cli.resolveDb dbOpt env)
            col key).1, .jsonOut j, 0⟩) ∨
      (∃ er, (DarangoClient.delete_document ex (Cli.resolveDb dbOpt env)
          col key).2 = .error er ∧
        Cli.delete env ex dbOpt col key =
          ⟨(DarangoClient.delete_document ex (Cli.resolveDb dbOpt env)
            col key).1, .errorOut er.message, 1⟩)) ∧
    (∀ parse env ex dbOpt col doc document, parse doc = .ok document →
      (∃ j, (DarangoClient.insert_document ex (Cli.resolveDb dbOpt env)
          col document).2 = .ok j ∧
        Cli.insert parse env ex dbOpt col doc =
          ⟨(DarangoClient.insert_document ex (Cli.resolveDb dbOpt env)
            col document).1, .jsonOut j, 0⟩) ∨
      (∃ er, (DarangoClient.insert_document ex (Cli.resolveDb dbOpt env)
          col document).2 = .error er ∧
        Cli.insert parse env ex dbOpt col doc =
          ⟨(DarangoClient.insert_document ex (Cli.resolveDb dbOpt env)
            col document).1, .errorOut er.message, 1⟩)) ∧
    (∀ parse env ex dbOpt col doc e, parse doc = .error e →
      Cli.insert parse env ex dbOpt col doc =
        ⟨[], .errorOut (.str ("Invalid JSON for document: " ++ e)), 1⟩) ∧
    (∀ parse env ex dbOpt col key doc document, parse doc = .ok document →
      (∃ j, (DarangoClient.update_document ex (Cli.resolveDb dbOpt env)
          col key document).2 = .ok j ∧
        Cli.update parse env ex dbOpt col key doc =
          ⟨(DarangoClient.update_document ex (Cli.resolveDb dbOpt env)
            col key document).1, .jsonOut j, 0⟩) ∨
      (∃ er, (DarangoClient.update_document ex (Cli.resolveDb dbOpt env)
          col key document).2 = .error er ∧
        Cli.update parse env ex dbOpt col key doc =
          ⟨(DarangoClient.update_document ex (Cli.resolveDb dbOpt env)
            col key document).1, .errorOut er.message, 1⟩)) ∧
    (∀ parse env ex dbOpt col key doc e, parse doc = .error e →
      Cli.update parse env ex dbOpt col key doc =
        ⟨[], .errorOut (.str ("Invalid JSON for document: " ++ e)), 1⟩) ∧
    (∀ parse env ex aql dbOpt bind, (bind = none ∨ bind = some "") →
      (∃ j, (DarangoClient.query ex (Cli.resolveDb dbOpt env) aql none).2 =
          .ok j ∧
        Cli.query parse env ex aql dbOpt bind =
          ⟨(DarangoClient.query ex (Cli.resolveDb dbOpt env) aql none).1,
           .jsonOut j, 0⟩) ∨
      (∃ er, (DarangoClient.query ex (Cli.resolveDb dbOpt env) aql none).2 =
          .error er ∧
        Cli.query parse env ex aql dbOpt bind =
          ⟨(DarangoClient.query ex (Cli.resolveDb dbOpt env) aql none).1,
           .errorOut er.message, 1⟩)) ∧
    (∀ parse env ex aql dbOpt s bv, s ≠ "" → parse s = .ok bv →
      (∃ j, (DarangoClient.query ex (Cli.resolveDb dbOpt env) aql
          (some bv)).2 = .ok j ∧
        Cli.query parse env ex aql dbOpt (some s) =
          ⟨(DarangoClient.query ex (Cli.resolveDb dbOpt env) aql
            (some bv)).1, .jsonOut j, 0⟩) ∨
      (∃ er, (DarangoClient.query ex (Cli.resolveDb dbOpt env) aql
          (some bv)).2 = .error er ∧
        Cli.query parse env ex aql dbOpt (some s) =
          ⟨(DarangoClient.query ex (Cli.resolveDb dbOpt env) aql
            (some bv)).1, .errorOut er.message, 1⟩)) ∧
    (∀ parse env ex aql dbOpt s e, s ≠ "" → parse s = .error e →
      Cli.query parse env ex aql dbOpt (some s) =
        ⟨[], .errorOut (.str ("Invalid JSON for bind variables: " ++ e)), 1⟩) := by
  refine ⟨?_, ?_, ?_, ?_, ?_, ?_, ?_, ?_, ?_, ?_⟩
  · intro env ex name dbOpt t
    exact renderOutcome_cases
      (DarangoClient.create_collection ex (Cli.resolveDb dbOpt env) name t)
  · intro env ex dbOpt col key
    exact renderOutcome_cases
      (DarangoClient.get_document ex (Cli.resolveDb dbOpt env) col key)
  · intro env ex dbOpt col key
    exact renderOutcome_cases
      (DarangoClient.delete_document ex (Cli.resolveDb dbOpt env) col key)
  · intro parse env ex dbOpt col doc document hp
    have h := renderOutcome_cases
      (DarangoClient.insert_document ex (Cli.resolveDb dbOpt env) col document)
    simpa [Cli.insert, hp] using h
  · intro parse env ex dbOpt col doc e hp
    simp [Cli.insert, hp]
  · intro parse env ex dbOpt col key doc document hp
    have h := renderOutcome_cases
      (DarangoClient.update_document ex (Cli.resolveDb dbOpt env) col key
        document)
    simpa [Cli.update, hp] using h
  · intro parse env ex dbOpt col key doc e hp
    simp [Cli.update, hp]
  · intro parse env ex aql dbOpt bind hbind
    have h := renderOutcome_cases
      (DarangoClient.query ex (Cli.resolveDb dbOpt env) aql none)
    rcases hbind with rfl | rfl
    · simpa [Cli.query] using h
    · simpa [Cli.query] using h
  · intro parse env ex aql dbOpt s bv hs hp
    have h := renderOutcome_cases
      (DarangoClient.query ex (Cli.resolveDb dbOpt env) aql (some bv))
    simpa [Cli.query, hs, hp] using h
  · intro parse env ex aql dbOpt s e hs hp
    simp [Cli.query, hs, hp]

/-- Witness for C8: a malformed `--bind` makes `query` exit 1 with the
invalid-input error and no request. -/
theorem c8_witness :
    Cli.query failParse none okTransport "RETURN 1" none (some "oops") =
      ⟨[], .errorOut (.str ("Invalid JSON for bind variables: " ++
        "Expecting value: line 1 column 1 (char 0)")), 1⟩ :=
  c8_exit_codes.2.2.2.2.2.2.2.2.2 failParse none okTransport "RETURN 1" none
    "oops" "Expecting value: line 1 column 1 (char 0)" (by decide) rfl
